import Mathlib

/-!
Shallow embedding of `src/vindstyrka_logger/log_values.py`.

The script correlates serial sensor lines with Zigbee (ZHA) readings fetched
over a Home Assistant websocket, appending one log line per successful cycle.

Modelling choices:
* Text (Python `str` / decoded `bytes`) is `List Char`; `decode()` is the
  identity on this representation.
* A websocket session is the finite list of inbound JSON messages, each paired
  with its absolute arrival time (in the same abstract time units as the 5-unit
  `asyncio.wait_for` timeout).  Inbound messages are records carrying every
  field the script ever reads (`type`, `id`, `success`, `result`); fields that
  a given message does not use in the script are simply never inspected.
* Outbound traffic (`ha_send`) is recorded as a trace of `OutMsg` values.
* `logger.error` calls inside `get_values` are recorded as a trace of
  `ErrEvent` values; `logger.warning` in `main` is recorded in `RunResult`.
* Raising an exception (auth failure) and blocking forever on a closed/empty
  stream are explicit outcomes.
* `datetime.now().isoformat()` is modelled by a clock: a list of timestamp
  strings, one consumed per accepted serial line.
-/

namespace Vindstyrka

/-- Inbound websocket message, with every field the script reads.
Python: a decoded JSON object; `ha_recv` is `json.loads(await ws.recv())`. -/
structure InMsg where
  type : List Char
  id : Nat
  success : Bool
  result : List Char
deriving DecidableEq

/-- Outbound websocket message, as sent by `ha_send` (which serialises
`{'type': event_type, **data}`).  The two shapes the script sends: the auth
message `{'type': 'auth', 'access_token': token}` and the cluster read request
`{'type': 'zha/devices/clusters/attributes/value', 'id': .., 'ieee': ..,
'endpoint_id': 1, 'cluster_id': .., 'cluster_type': 'in', 'attribute': 0}`. -/
inductive OutMsg where
  | auth (accessToken : List Char)
  | clusterReq (id : Nat) (ieee : List Char) (endpointId : Nat)
      (clusterId : Nat) (attr : Nat)
deriving DecidableEq

/-- Events logged via `logger.error` inside `get_values`. -/
inductive ErrEvent where
  | respFailed (response : InMsg)
  | timedOut
deriving DecidableEq

/-- How one `get_values` call ends. -/
inductive FetchOutcome where
  | ok (values : List (List Char))
  | failed
  | authError
  | blocked
deriving DecidableEq

/-- Result of one `get_values` call: outbound trace, error-log trace,
and the outcome. -/
structure FetchResult where
  sent : List OutMsg
  errors : List ErrEvent
  outcome : FetchOutcome
deriving DecidableEq

/-- The fixed cluster list from `get_values`:
PM2.5 (0x042a), VOC index (0xfc7e), humidity (0x0405), temperature (0x0402). -/
def clusters : List Nat := [0x042a, 0xfc7e, 0x0405, 0x0402]

/-- `ha_await` wrapped in `asyncio.wait_for(_, 5)`: starting at time `now`
with absolute deadline `deadline`, repeatedly receive messages (each message
is available at its absolute arrival time, or immediately if already queued),
skipping any whose `id` differs from `mid`, until a matching message arrives
or the deadline passes.  Returns the matched message (if any), the time at
which the wait ended, and the unconsumed remainder of the stream.  On timeout
the message the socket had not yet delivered stays in the stream; an exhausted
stream means no message ever arrives, so the wait ends at the deadline. -/
def ha_await (now deadline mid : Nat) :
    List (Nat × InMsg) → Option InMsg × Nat × List (Nat × InMsg)
  | [] => (none, deadline, [])
  | (a, m) :: rest =>
    if deadline < a then (none, deadline, (a, m) :: rest)
    else if m.id = mid then (some m, max a now, rest)
    else ha_await (max a now) deadline mid rest

/-- The `for cluster in clusters` loop of `get_values`: for each cluster,
increment `message_id`, send the read request, and await the matching response
for at most 5 time units.  A response with `success = false` is logged and
ends the call immediately (Python `return`, i.e. `None`); a timeout is logged
and the loop moves on without appending anything; a successful response has
its `result` appended to `values`. -/
def get_values_loop (ieee : List Char) :
    List Nat → Nat → List (List Char) → Nat → List (Nat × InMsg) →
    List OutMsg × List ErrEvent × FetchOutcome
  | [], _, values, _, _ => ([], [], .ok values)
  | c :: cs, mid, values, now, stream =>
    let req := OutMsg.clusterReq (mid + 1) ieee 1 c 0
    match ha_await now (now + 5) (mid + 1) stream with
    | (some m, t, rest) =>
      if m.success then
        let r := get_values_loop ieee cs (mid + 1) (values ++ [m.result]) t rest
        (req :: r.1, r.2.1, r.2.2)
      else
        ([req], [.respFailed m], .failed)
    | (none, t, rest) =>
      let r := get_values_loop ieee cs (mid + 1) values t rest
      (req :: r.1, .timedOut :: r.2.1, r.2.2)

/-- `ZHAReader.get_values`: open the websocket (the `stream` of inbound
messages), and if the first inbound message has type `auth_required`, send the
auth message and require the next message to have type `auth_ok` — anything
else raises (`authError`).  If the first message is not `auth_required` the
auth block is skipped entirely.  Then run the cluster loop with `message_id`
starting at 0 and `values` empty.  `ha_recv` on an exhausted stream blocks
forever (`blocked`). -/
def get_values (token ieee : List Char) :
    List (Nat × InMsg) → FetchResult
  | [] => ⟨[], [], .blocked⟩
  | (a1, m1) :: s1 =>
    if m1.type = "auth_required".data then
      match s1 with
      | [] => ⟨[.auth token], [], .blocked⟩
      | (a2, m2) :: s2 =>
        if m2.type = "auth_ok".data then
          let r := get_values_loop ieee clusters 0 [] (max a2 (max a1 0)) s2
          ⟨.auth token :: r.1, r.2.1, r.2.2⟩
        else ⟨[.auth token], [], .authError⟩
    else
      let r := get_values_loop ieee clusters 0 [] (max a1 0) s1
      ⟨r.1, r.2.1, r.2.2⟩

/-- Python `bytes.strip()` whitespace set: space, tab, newline, carriage
return, vertical tab, form feed. -/
def pyIsSpace (c : Char) : Bool :=
  c = ' ' || c = '\t' || c = '\n' || c = '\r' || c = '\x0b' || c = '\x0c'

/-- `bytes.strip()`: drop leading and trailing whitespace. -/
def bstrip (l : List Char) : List Char :=
  ((l.dropWhile pyIsSpace).reverse.dropWhile pyIsSpace).reverse

/-- `str.rstrip(',')`: drop trailing commas. -/
def rstripComma (l : List Char) : List Char :=
  (l.reverse.dropWhile (fun c => c = ',')).reverse

/-- The log line built in `main`:
`f"{ts};{sen54log},ZHA,{len(zha_values)},{zha_log}"` where
`zha_log = ','.join(zha_values)`. -/
def logLine (ts sen : List Char) (vs : List (List Char)) : List Char :=
  ts ++ ';' :: (sen ++ ",ZHA,".data ++ (Nat.repr vs.length).data
    ++ ',' :: List.intercalate [','] vs)

/-- Ways the modelled run can stop exceptionally: the `IndexError` from
`sen54log[0]` on an empty string, the uncaught auth exception from
`get_values`, a forever-blocking receive, or the model running out of supplied
timestamps/sessions. -/
inductive Crash where
  | indexErr (raw : List Char)
  | authErr
  | blockedErr
  | outOfInput
deriving DecidableEq

/-- Observable result of a run of `main`'s loop: the log lines written (in
order, without the trailing newline), the `logger.warning` data-error lines,
and whether the run crashed. -/
structure RunResult where
  lines : List (List Char)
  warnings : List (List Char)
  crash : Option Crash
deriving DecidableEq

/-- The `while True` loop of `main`, run over a finite list of serial lines
(the model ends when the serial input is exhausted).  Each raw line is
stripped; empty lines are skipped.  Non-empty lines are decoded and stripped
of trailing commas; a line whose first character is `!` or `#` is logged as a
data error and skipped (indexing an empty string raises `IndexError` and
crashes the process).  Otherwise a timestamp is taken from the clock and
`get_values` is driven on the next websocket session; a non-empty value list
produces one written log line, and an exception from `get_values` propagates
(there is no handler in `main`), ending the run. -/
def runMain (token ieee : List Char) :
    List (List Char) → List (List Char) → List (List (Nat × InMsg)) →
    RunResult
  | [], _, _ => ⟨[], [], none⟩
  | raw :: rest, clock, sessions =>
    let s := bstrip raw
    if s = [] then runMain token ieee rest clock sessions
    else
      match rstripComma s with
      | [] => ⟨[], [], some (.indexErr raw)⟩
      | c :: t =>
        if c = '!' ∨ c = '#' then
          let r := runMain token ieee rest clock sessions
          ⟨r.lines, (c :: t) :: r.warnings, r.crash⟩
        else
          match clock, sessions with
          | ts :: clock', sess :: sessions' =>
            match (get_values token ieee sess).outcome with
            | .ok vs =>
              if vs = [] then runMain token ieee rest clock' sessions'
              else
                let r := runMain token ieee rest clock' sessions'
                ⟨logLine ts (c :: t) vs :: r.lines, r.warnings, r.crash⟩
            | .failed => runMain token ieee rest clock' sessions'
            | .authError => ⟨[], [], some .authErr⟩
            | .blocked => ⟨[], [], some .blockedErr⟩
          | _, _ => ⟨[], [], some .outOfInput⟩

/-- Helper for statements: the cluster read requests `get_values_loop` sends
for a cluster list, with ids counting up from `mid + 1`. -/
def reqsFor (ieee : List Char) (mid : Nat) : List Nat → List OutMsg
  | [] => []
  | c :: cs => OutMsg.clusterReq (mid + 1) ieee 1 c 0 :: reqsFor ieee (mid + 1) cs

/-- Helper for statements: number of timeout events in an error trace. -/
def countTimeouts (e : List ErrEvent) : Nat :=
  e.countP (fun x => x = ErrEvent.timedOut)

/-- Helper for statements: everything from the first `;` on — the log line
with its timestamp field removed. -/
def stripTs (l : List Char) : List Char :=
  l.dropWhile (fun c => ¬ c = ';')

/-- Helper for statements: the request id carried by an outbound message
(0 for the auth message, which carries none). -/
def reqId : OutMsg → Nat
  | .auth _ => 0
  | .clusterReq i _ _ _ _ => i

/-! ### Equation lemmas -/

theorem get_values_loop_cons_success (ieee : List Char) (c : Nat)
    (cs : List Nat) (mid : Nat) (values : List (List Char)) (now : Nat)
    (stream : List (Nat × InMsg)) (m : InMsg) (t : Nat)
    (rest : List (Nat × InMsg))
    (haw : ha_await now (now + 5) (mid + 1) stream = (some m, t, rest))
    (hs : m.success = true) :
    get_values_loop ieee (c :: cs) mid values now stream =
      (OutMsg.clusterReq (mid + 1) ieee 1 c 0 ::
        (get_values_loop ieee cs (mid + 1) (values ++ [m.result]) t rest).1,
       (get_values_loop ieee cs (mid + 1) (values ++ [m.result]) t rest).2.1,
       (get_values_loop ieee cs (mid + 1) (values ++ [m.result]) t rest).2.2) := by
  simp [get_values_loop, haw, hs]

theorem get_values_loop_cons_failed (ieee : List Char) (c : Nat)
    (cs : List Nat) (mid : Nat) (values : List (List Char)) (now : Nat)
    (stream : List (Nat × InMsg)) (m : InMsg) (t : Nat)
    (rest : List (Nat × InMsg))
    (haw : ha_await now (now + 5) (mid + 1) stream = (some m, t, rest))
    (hs : m.success = false) :
    get_values_loop ieee (c :: cs) mid values now stream =
      ([OutMsg.clusterReq (mid + 1) ieee 1 c 0],
       [ErrEvent.respFailed m], .failed) := by
  simp [get_values_loop, haw, hs]

theorem get_values_loop_cons_timeout (ieee : List Char) (c : Nat)
    (cs : List Nat) (mid : Nat) (values : List (List Char)) (now t : Nat)
    (stream rest : List (Nat × InMsg))
    (haw : ha_await now (now + 5) (mid + 1) stream = (none, t, rest)) :
    get_values_loop ieee (c :: cs) mid values now stream =
      (OutMsg.clusterReq (mid + 1) ieee 1 c 0 ::
        (get_values_loop ieee cs (mid + 1) values t rest).1,
       ErrEvent.timedOut :: (get_values_loop ieee cs (mid + 1) values t rest).2.1,
       (get_values_loop ieee cs (mid + 1) values t rest).2.2) := by
  simp [get_values_loop, haw]

theorem runMain_cons_empty (token ieee raw : List Char)
    (rest clock : List (List Char)) (sessions : List (List (Nat × InMsg)))
    (h : bstrip raw = []) :
    runMain token ieee (raw :: rest) clock sessions =
      runMain token ieee rest clock sessions := by
  simp [runMain, h]

theorem runMain_cons_indexErr (token ieee raw : List Char)
    (rest clock : List (List Char)) (sessions : List (List (Nat × InMsg)))
    (h : bstrip raw ≠ []) (h2 : rstripComma (bstrip raw) = []) :
    runMain token ieee (raw :: rest) clock sessions =
      ⟨[], [], some (.indexErr raw)⟩ := by
  simp [runMain, h, h2]

theorem runMain_cons_sentinel (token ieee raw : List Char)
    (rest clock : List (List Char)) (sessions : List (List (Nat × InMsg)))
    (c : Char) (t : List Char)
    (h2 : rstripComma (bstrip raw) = c :: t) (hc : c = '!' ∨ c = '#') :
    runMain token ieee (raw :: rest) clock sessions =
      ⟨(runMain token ieee rest clock sessions).lines,
       (c :: t) :: (runMain token ieee rest clock sessions).warnings,
       (runMain token ieee rest clock sessions).crash⟩ := by
  have h : bstrip raw ≠ [] := by
    intro h
    simp [rstripComma, h] at h2
  simp [runMain, h, h2, hc]

theorem runMain_cons_ok (token ieee raw ts : List Char)
    (rest clock : List (List Char)) (sess : List (Nat × InMsg))
    (sessions : List (List (Nat × InMsg)))
    (c : Char) (t : List Char) (vs : List (List Char))
    (h2 : rstripComma (bstrip raw) = c :: t) (hc : ¬ (c = '!' ∨ c = '#'))
    (hv : (get_values token ieee sess).outcome = .ok vs) (hne : vs ≠ []) :
    runMain token ieee (raw :: rest) (ts :: clock) (sess :: sessions) =
      ⟨logLine ts (c :: t) vs :: (runMain token ieee rest clock sessions).lines,
       (runMain token ieee rest clock sessions).warnings,
       (runMain token ieee rest clock sessions).crash⟩ := by
  have h : bstrip raw ≠ [] := by
    intro h
    simp [rstripComma, h] at h2
  simp [runMain, h, h2, hc, hv, hne]

theorem runMain_cons_ok_nil (token ieee raw ts : List Char)
    (rest clock : List (List Char)) (sess : List (Nat × InMsg))
    (sessions : List (List (Nat × InMsg)))
    (c : Char) (t : List Char)
    (h2 : rstripComma (bstrip raw) = c :: t) (hc : ¬ (c = '!' ∨ c = '#'))
    (hv : (get_values token ieee sess).outcome = .ok []) :
    runMain token ieee (raw :: rest) (ts :: clock) (sess :: sessions) =
      runMain token ieee rest clock sessions := by
  have h : bstrip raw ≠ [] := by
    intro h
    simp [rstripComma, h] at h2
  simp [runMain, h, h2, hc, hv]

theorem runMain_cons_failed (token ieee raw ts : List Char)
    (rest clock : List (List Char)) (sess : List (Nat × InMsg))
    (sessions : List (List (Nat × InMsg)))
    (c : Char) (t : List Char)
    (h2 : rstripComma (bstrip raw) = c :: t) (hc : ¬ (c = '!' ∨ c = '#'))
    (hv : (get_values token ieee sess).outcome = .failed) :
    runMain token ieee (raw :: rest) (ts :: clock) (sess :: sessions) =
      runMain token ieee rest clock sessions := by
  have h : bstrip raw ≠ [] := by
    intro h
    simp [rstripComma, h] at h2
  simp [runMain, h, h2, hc, hv]

theorem runMain_cons_authError (token ieee raw ts : List Char)
    (rest clock : List (List Char)) (sess : List (Nat × InMsg))
    (sessions : List (List (Nat × InMsg)))
    (c : Char) (t : List Char)
    (h2 : rstripComma (bstrip raw) = c :: t) (hc : ¬ (c = '!' ∨ c = '#'))
    (hv : (get_values token ieee sess).outcome = .authError) :
    runMain token ieee (raw :: rest) (ts :: clock) (sess :: sessions) =
      ⟨[], [], some .authErr⟩ := by
  have h : bstrip raw ≠ [] := by
    intro h
    simp [rstripComma, h] at h2
  simp [runMain, h, h2, hc, hv]

theorem runMain_cons_blocked (token ieee raw ts : List Char)
    (rest clock : List (List Char)) (sess : List (Nat × InMsg))
    (sessions : List (List (Nat × InMsg)))
    (c : Char) (t : List Char)
    (h2 : rstripComma (bstrip raw) = c :: t) (hc : ¬ (c = '!' ∨ c = '#'))
    (hv : (get_values token ieee sess).outcome = .blocked) :
    runMain token ieee (raw :: rest) (ts :: clock) (sess :: sessions) =
      ⟨[], [], some .blockedErr⟩ := by
  have h : bstrip raw ≠ [] := by
    intro h
    simp [rstripComma, h] at h2
  simp [runMain, h, h2, hc, hv]

theorem runMain_cons_outOfInput (token ieee raw : List Char)
    (rest clock : List (List Char)) (sessions : List (List (Nat × InMsg)))
    (c : Char) (t : List Char)
    (h2 : rstripComma (bstrip raw) = c :: t) (hc : ¬ (c = '!' ∨ c = '#'))
    (hcs : clock = [] ∨ sessions = []) :
    runMain token ieee (raw :: rest) clock sessions =
      ⟨[], [], some .outOfInput⟩ := by
  have h : bstrip raw ≠ [] := by
    intro h
    simp [rstripComma, h] at h2
  rcases hcs with rfl | rfl
  · simp [runMain, h, h2, hc]
  · cases clock <;> simp [runMain, h, h2, hc]

/-! ### Structural lemmas about the websocket session -/

/-- When `ha_await` returns a message, that message's id is the requested
one, and everything skipped on the way to it had a different id. -/
theorem ha_await_some_spec (mid : Nat) :
    ∀ (stream : List (Nat × InMsg)) (now deadline t : Nat) (m : InMsg)
      (rest : List (Nat × InMsg)),
    ha_await now deadline mid stream = (some m, t, rest) →
    m.id = mid ∧
      ∃ pre a, stream = pre ++ (a, m) :: rest ∧
        ∀ q ∈ pre, (Prod.snd q).id ≠ mid := by
  intro stream
  induction stream with
  | nil =>
    intro now deadline t m rest h
    simp [ha_await] at h
  | cons p tail ih =>
    obtain ⟨a, msg⟩ := p
    intro now deadline t m rest h
    simp only [ha_await] at h
    split at h
    · simp at h
    · split at h
      · rename_i hid
        simp only [Prod.mk.injEq, Option.some.injEq] at h
        obtain ⟨rfl, ht, rfl⟩ := h
        exact ⟨hid, [], a, rfl, by simp⟩
      · rename_i hid
        obtain ⟨h1, pre, a', heq, hpre⟩ := ih _ _ _ _ _ h
        refine ⟨h1, (a, msg) :: pre, a', by simp [heq], ?_⟩
        intro q hq
        rcases List.mem_cons.mp hq with rfl | hq
        · simpa using hid
        · exact hpre q hq

/-- Every request `reqsFor` produces is a cluster read request to endpoint 1,
attribute 0, of the given device. -/
theorem mem_reqsFor (ieee : List Char) :
    ∀ (cs : List Nat) (mid : Nat) (r : OutMsg), r ∈ reqsFor ieee mid cs →
      ∃ i c, r = OutMsg.clusterReq i ieee 1 c 0 := by
  intro cs
  induction cs with
  | nil => intro mid r h; simp [reqsFor] at h
  | cons c cs ih =>
    intro mid r h
    rcases List.mem_cons.mp h with rfl | h
    · exact ⟨mid + 1, c, rfl⟩
    · exact ih (mid + 1) r h

/-- The request ids produced by `reqsFor` are the consecutive integers
`mid + 1, mid + 2, ...`. -/
theorem reqsFor_map_reqId (ieee : List Char) :
    ∀ (cs : List Nat) (mid : Nat),
      (reqsFor ieee mid cs).map reqId = List.range' (mid + 1) cs.length := by
  intro cs
  induction cs with
  | nil => intro mid; simp [reqsFor]
  | cons c cs ih =>
    intro mid
    simp [reqsFor, reqId, List.range'_succ, ih (mid + 1)]

/-- The outbound trace of the cluster loop is exactly the read requests for
some prefix of the cluster list, with sequential ids. -/
theorem get_values_loop_sent (ieee : List Char) :
    ∀ (cs : List Nat) (mid : Nat) (values : List (List Char)) (now : Nat)
      (stream : List (Nat × InMsg)),
    ∃ k, k ≤ cs.length ∧
      (get_values_loop ieee cs mid values now stream).1 =
        reqsFor ieee mid (cs.take k) := by
  intro cs
  induction cs with
  | nil =>
    intro mid values now stream
    exact ⟨0, by simp, rfl⟩
  | cons c cs ih =>
    intro mid values now stream
    rcases haw : ha_await now (now + 5) (mid + 1) stream with ⟨om, t, rest⟩
    cases om with
    | none =>
      obtain ⟨k, hk, hs⟩ := ih (mid + 1) values t rest
      refine ⟨k + 1, by simpa using hk, ?_⟩
      rw [get_values_loop_cons_timeout ieee c cs mid values now t stream rest haw]
      simp [reqsFor, hs]
    | some m =>
      rcases hsuc : m.success with _ | _
      · refine ⟨1, by simp, ?_⟩
        rw [get_values_loop_cons_failed ieee c cs mid values now stream m t rest haw hsuc]
        simp [reqsFor]
      · obtain ⟨k, hk, hs⟩ := ih (mid + 1) (values ++ [m.result]) t rest
        refine ⟨k + 1, by simpa using hk, ?_⟩
        rw [get_values_loop_cons_success ieee c cs mid values now stream m t rest haw hsuc]
        simp [reqsFor, hs]

theorem countTimeouts_cons_timedOut (e : List ErrEvent) :
    countTimeouts (ErrEvent.timedOut :: e) = countTimeouts e + 1 := by
  simp [countTimeouts]

/-- When the cluster loop returns normally (`ok`), the number of collected
values plus the number of logged timeouts accounts for every cluster, every
logged error is a timeout, and every cluster was requested. -/
theorem get_values_loop_ok_spec (ieee : List Char) :
    ∀ (cs : List Nat) (mid : Nat) (values : List (List Char)) (now : Nat)
      (stream : List (Nat × InMsg)) (s : List OutMsg) (e : List ErrEvent)
      (vs : List (List Char)),
    get_values_loop ieee cs mid values now stream = (s, e, .ok vs) →
    vs.length + countTimeouts e = values.length + cs.length ∧
      (∀ x ∈ e, x = ErrEvent.timedOut) ∧ s = reqsFor ieee mid cs := by
  intro cs
  induction cs with
  | nil =>
    intro mid values now stream s e vs h
    simp only [get_values_loop, Prod.mk.injEq, FetchOutcome.ok.injEq] at h
    obtain ⟨hs, he, hv⟩ := h
    subst hs
    subst he
    subst hv
    simp [countTimeouts, reqsFor]
  | cons c cs ih =>
    intro mid values now stream s e vs h
    rcases haw : ha_await now (now + 5) (mid + 1) stream with ⟨om, t, rest⟩
    cases om with
    | none =>
      rw [get_values_loop_cons_timeout ieee c cs mid values now t stream rest haw] at h
      simp only [Prod.mk.injEq] at h
      obtain ⟨hs, he, hv⟩ := h
      obtain ⟨h1, h2, h3⟩ := ih (mid + 1) values t rest _ _ vs (by rw [← hv])
      subst hs
      subst he
      refine ⟨?_, ?_, ?_⟩
      · rw [countTimeouts_cons_timedOut, List.length_cons, ← Nat.add_assoc, h1,
          Nat.add_assoc]
      · intro x hx
        rcases List.mem_cons.mp hx with rfl | hx
        · rfl
        · exact h2 x hx
      · rw [reqsFor, h3]
    | some m =>
      rcases hsuc : m.success with _ | _
      · rw [get_values_loop_cons_failed ieee c cs mid values now stream m t rest haw hsuc] at h
        simp at h
      · rw [get_values_loop_cons_success ieee c cs mid values now stream m t rest haw hsuc] at h
        simp only [Prod.mk.injEq] at h
        obtain ⟨hs, he, hv⟩ := h
        obtain ⟨h1, h2, h3⟩ := ih (mid + 1) (values ++ [m.result]) t rest _ _ vs (by rw [← hv])
        subst hs
        subst he
        refine ⟨?_, ?_, ?_⟩
        · rw [h1, List.length_append, List.length_cons]
          simp only [List.length_cons, List.length_nil]
          omega
        · intro x hx
          exact h2 x hx
        · rw [reqsFor, h3]

/-! ### Equation lemmas for `get_values` -/

theorem get_values_auth_ok_eq (token ieee : List Char) (a1 a2 : Nat)
    (m1 m2 : InMsg) (s2 : List (Nat × InMsg))
    (h1 : m1.type = "auth_required".data) (h2 : m2.type = "auth_ok".data) :
    get_values token ieee ((a1, m1) :: (a2, m2) :: s2) =
      ⟨OutMsg.auth token ::
        (get_values_loop ieee clusters 0 [] (max a2 (max a1 0)) s2).1,
       (get_values_loop ieee clusters 0 [] (max a2 (max a1 0)) s2).2.1,
       (get_values_loop ieee clusters 0 [] (max a2 (max a1 0)) s2).2.2⟩ := by
  simp [get_values, h1, h2]

theorem get_values_auth_bad_eq (token ieee : List Char) (a1 a2 : Nat)
    (m1 m2 : InMsg) (s2 : List (Nat × InMsg))
    (h1 : m1.type = "auth_required".data) (h2 : ¬ m2.type = "auth_ok".data) :
    get_values token ieee ((a1, m1) :: (a2, m2) :: s2) =
      ⟨[OutMsg.auth token], [], .authError⟩ := by
  simp [get_values, h1, h2]

theorem get_values_no_auth_eq (token ieee : List Char) (a1 : Nat)
    (m1 : InMsg) (s1 : List (Nat × InMsg))
    (h1 : ¬ m1.type = "auth_required".data) :
    get_values token ieee ((a1, m1) :: s1) =
      ⟨(get_values_loop ieee clusters 0 [] (max a1 0) s1).1,
       (get_values_loop ieee clusters 0 [] (max a1 0) s1).2.1,
       (get_values_loop ieee clusters 0 [] (max a1 0) s1).2.2⟩ := by
  simp [get_values, h1]

/-- Whenever `get_values` returns a value list (`ok`), the number of values
plus the number of logged timeouts equals the number of clusters, and every
error logged on the way was a timeout. -/
theorem get_values_ok_spec (token ieee : List Char)
    (stream : List (Nat × InMsg)) (s : List OutMsg) (e : List ErrEvent)
    (vs : List (List Char))
    (h : get_values token ieee stream = ⟨s, e, .ok vs⟩) :
    vs.length + countTimeouts e = clusters.length ∧
      ∀ x ∈ e, x = ErrEvent.timedOut := by
  cases stream with
  | nil => simp [get_values] at h
  | cons p s1 =>
    obtain ⟨a1, m1⟩ := p
    by_cases h1 : m1.type = "auth_required".data
    · cases s1 with
      | nil => simp [get_values, h1] at h
      | cons q s2 =>
        obtain ⟨a2, m2⟩ := q
        by_cases h2 : m2.type = "auth_ok".data
        · rw [get_values_auth_ok_eq token ieee a1 a2 m1 m2 s2 h1 h2] at h
          simp only [FetchResult.mk.injEq] at h
          obtain ⟨hs, he, hv⟩ := h
          obtain ⟨c1, c2, _⟩ := get_values_loop_ok_spec ieee clusters 0 []
            (max a2 (max a1 0)) s2 _ _ vs (by rw [← hv])
          subst he
          exact ⟨by simpa using c1, c2⟩
        · rw [get_values_auth_bad_eq token ieee a1 a2 m1 m2 s2 h1 h2] at h
          simp at h
    · rw [get_values_no_auth_eq token ieee a1 m1 s1 h1] at h
      simp only [FetchResult.mk.injEq] at h
      obtain ⟨hs, he, hv⟩ := h
      obtain ⟨c1, c2, _⟩ := get_values_loop_ok_spec ieee clusters 0 []
        (max a1 0) s1 _ _ vs (by rw [← hv])
      subst he
      exact ⟨by simpa using c1, c2⟩

/-! ### String-level lemmas -/

/-- The decoded, comma-stripped serial line is empty exactly when the
whitespace-stripped line consists only of commas. -/
theorem rstripComma_eq_nil_iff (l : List Char) :
    rstripComma l = [] ↔ ∀ c ∈ l, c = ',' := by
  simp [rstripComma, List.dropWhile_eq_nil_iff]

theorem stripTs_cons_ne (c : Char) (l : List Char) (hc : ¬ c = ';') :
    stripTs (c :: l) = stripTs l := by
  simp [stripTs, List.dropWhile_cons, hc]

/-- Dropping up to the first `;` of a log line removes exactly the timestamp
field, provided the timestamp itself contains no `;`. -/
theorem stripTs_append_semi (ts r : List Char) (h : ';' ∉ ts) :
    stripTs (ts ++ ';' :: r) = ';' :: r := by
  induction ts with
  | nil => simp [stripTs]
  | cons c ts ih =>
    have hc : ¬ c = ';' := by
      intro e
      exact h (by simp [e])
    have h' : ';' ∉ ts := fun m => h (List.mem_cons_of_mem _ m)
    rw [List.cons_append, stripTs_cons_ne c _ hc]
    exact ih h'

/-! ### Run-level lemmas -/

/-- Every line the loop ever writes is a `logLine` built from a timestamp, a
serial fragment and a non-empty value list that some supplied websocket
session actually produced. -/
theorem runMain_lines_spec (token ieee : List Char) :
    ∀ (raws clock : List (List Char)) (sessions : List (List (Nat × InMsg))),
    ∀ l ∈ (runMain token ieee raws clock sessions).lines,
      ∃ ts sen vs, vs ≠ [] ∧
        (∃ sess ∈ sessions, (get_values token ieee sess).outcome = .ok vs) ∧
        l = logLine ts sen vs := by
  intro raws
  induction raws with
  | nil =>
    intro clock sessions l hl
    simp [runMain] at hl
  | cons raw rest ih =>
    intro clock sessions l hl
    by_cases hb : bstrip raw = []
    · rw [runMain_cons_empty token ieee raw rest clock sessions hb] at hl
      exact ih clock sessions l hl
    · rcases hr : rstripComma (bstrip raw) with _ | ⟨c, t⟩
      · rw [runMain_cons_indexErr token ieee raw rest clock sessions hb hr] at hl
        simp at hl
      · by_cases hc : c = '!' ∨ c = '#'
        · rw [runMain_cons_sentinel token ieee raw rest clock sessions c t hr hc] at hl
          exact ih clock sessions l hl
        · cases clock with
          | nil =>
            rw [runMain_cons_outOfInput token ieee raw rest [] sessions c t hr hc
              (Or.inl rfl)] at hl
            simp at hl
          | cons ts clock' =>
            cases sessions with
            | nil =>
              rw [runMain_cons_outOfInput token ieee raw rest (ts :: clock') [] c t hr hc
                (Or.inr rfl)] at hl
              simp at hl
            | cons sess sessions' =>
              cases ho : (get_values token ieee sess).outcome with
              | ok vs =>
                by_cases hv : vs = []
                · subst hv
                  rw [runMain_cons_ok_nil token ieee raw ts rest clock' sess sessions'
                    c t hr hc ho] at hl
                  obtain ⟨ts', sen', vs', hne', ⟨sess', hmem, hok⟩, hll⟩ :=
                    ih clock' sessions' l hl
                  exact ⟨ts', sen', vs', hne',
                    ⟨sess', List.mem_cons_of_mem _ hmem, hok⟩, hll⟩
                · rw [runMain_cons_ok token ieee raw ts rest clock' sess sessions'
                    c t vs hr hc ho hv] at hl
                  rcases List.mem_cons.mp hl with rfl | hl
                  · exact ⟨ts, c :: t, vs, hv,
                      ⟨sess, List.mem_cons_self _ _, ho⟩, rfl⟩
                  · obtain ⟨ts', sen', vs', hne', ⟨sess', hmem, hok⟩, hll⟩ :=
                      ih clock' sessions' l hl
                    exact ⟨ts', sen', vs', hne',
                      ⟨sess', List.mem_cons_of_mem _ hmem, hok⟩, hll⟩
              | failed =>
                rw [runMain_cons_failed token ieee raw ts rest clock' sess sessions'
                  c t hr hc ho] at hl
                obtain ⟨ts', sen', vs', hne', ⟨sess', hmem, hok⟩, hll⟩ :=
                  ih clock' sessions' l hl
                exact ⟨ts', sen', vs', hne',
                  ⟨sess', List.mem_cons_of_mem _ hmem, hok⟩, hll⟩
              | authError =>
                rw [runMain_cons_authError token ieee raw ts rest clock' sess sessions'
                  c t hr hc ho] at hl
                simp at hl
              | blocked =>
                rw [runMain_cons_blocked token ieee raw ts rest clock' sess sessions'
                  c t hr hc ho] at hl
                simp at hl

/-- The output of the loop is a deterministic function of the serial lines
and the websocket sessions: running it with two different clocks of the same
length gives the same written lines up to the timestamp field, the same
warnings, and the same crash status. -/
theorem runMain_clock_congr (token ieee : List Char) :
    ∀ (raws clock1 clock2 : List (List Char))
      (sessions : List (List (Nat × InMsg))),
    clock1.length = clock2.length →
    (∀ ts ∈ clock1, ';' ∉ ts) → (∀ ts ∈ clock2, ';' ∉ ts) →
    (runMain token ieee raws clock1 sessions).lines.map stripTs =
        (runMain token ieee raws clock2 sessions).lines.map stripTs ∧
      (runMain token ieee raws clock1 sessions).warnings =
        (runMain token ieee raws clock2 sessions).warnings ∧
      (runMain token ieee raws clock1 sessions).crash =
        (runMain token ieee raws clock2 sessions).crash := by
  intro raws
  induction raws with
  | nil =>
    intro clock1 clock2 sessions hlen hns1 hns2
    exact ⟨rfl, rfl, rfl⟩
  | cons raw rest ih =>
    intro clock1 clock2 sessions hlen hns1 hns2
    by_cases hb : bstrip raw = []
    · rw [runMain_cons_empty token ieee raw rest clock1 sessions hb,
        runMain_cons_empty token ieee raw rest clock2 sessions hb]
      exact ih clock1 clock2 sessions hlen hns1 hns2
    · rcases hr : rstripComma (bstrip raw) with _ | ⟨c, t⟩
      · rw [runMain_cons_indexErr token ieee raw rest clock1 sessions hb hr,
          runMain_cons_indexErr token ieee raw rest clock2 sessions hb hr]
        exact ⟨rfl, rfl, rfl⟩
      · by_cases hc : c = '!' ∨ c = '#'
        · rw [runMain_cons_sentinel token ieee raw rest clock1 sessions c t hr hc,
            runMain_cons_sentinel token ieee raw rest clock2 sessions c t hr hc]
          obtain ⟨L, W, C⟩ := ih clock1 clock2 sessions hlen hns1 hns2
          exact ⟨L, by rw [W], C⟩
        · cases clock1 with
          | nil =>
            cases clock2 with
            | nil =>
              rw [runMain_cons_outOfInput token ieee raw rest [] sessions c t hr hc
                (Or.inl rfl)]
              exact ⟨rfl, rfl, rfl⟩
            | cons ts2 clock2' => simp at hlen
          | cons ts1 clock1' =>
            cases clock2 with
            | nil => simp at hlen
            | cons ts2 clock2' =>
              have hlen' : clock1'.length = clock2'.length := by
                simpa using hlen
              have hns1' : ∀ ts ∈ clock1', ';' ∉ ts :=
                fun ts m => hns1 ts (List.mem_cons_of_mem _ m)
              have hns2' : ∀ ts ∈ clock2', ';' ∉ ts :=
                fun ts m => hns2 ts (List.mem_cons_of_mem _ m)
              cases sessions with
              | nil =>
                rw [runMain_cons_outOfInput token ieee raw rest (ts1 :: clock1') []
                    c t hr hc (Or.inr rfl),
                  runMain_cons_outOfInput token ieee raw rest (ts2 :: clock2') []
                    c t hr hc (Or.inr rfl)]
                exact ⟨rfl, rfl, rfl⟩
              | cons sess sessions' =>
                cases ho : (get_values token ieee sess).outcome with
                | ok vs =>
                  by_cases hv : vs = []
                  · subst hv
                    rw [runMain_cons_ok_nil token ieee raw ts1 rest clock1' sess
                        sessions' c t hr hc ho,
                      runMain_cons_ok_nil token ieee raw ts2 rest clock2' sess
                        sessions' c t hr hc ho]
                    exact ih clock1' clock2' sessions' hlen' hns1' hns2'
                  · rw [runMain_cons_ok token ieee raw ts1 rest clock1' sess
                        sessions' c t vs hr hc ho hv,
                      runMain_cons_ok token ieee raw ts2 rest clock2' sess
                        sessions' c t vs hr hc ho hv]
                    obtain ⟨L, W, C⟩ := ih clock1' clock2' sessions' hlen' hns1' hns2'
                    refine ⟨?_, W, C⟩
                    simp only [List.map_cons]
                    rw [L]
                    have e1 : stripTs (logLine ts1 (c :: t) vs) =
                        stripTs (logLine ts2 (c :: t) vs) := by
                      unfold logLine
                      rw [stripTs_append_semi _ _ (hns1 ts1 (List.mem_cons_self _ _)),
                        stripTs_append_semi _ _ (hns2 ts2 (List.mem_cons_self _ _))]
                    rw [e1]
                | failed =>
                  rw [runMain_cons_failed token ieee raw ts1 rest clock1' sess
                      sessions' c t hr hc ho,
                    runMain_cons_failed token ieee raw ts2 rest clock2' sess
                      sessions' c t hr hc ho]
                  exact ih clock1' clock2' sessions' hlen' hns1' hns2'
                | authError =>
                  rw [runMain_cons_authError token ieee raw ts1 rest clock1' sess
                      sessions' c t hr hc ho,
                    runMain_cons_authError token ieee raw ts2 rest clock2' sess
                      sessions' c t hr hc ho]
                  exact ⟨rfl, rfl, rfl⟩
                | blocked =>
                  rw [runMain_cons_blocked token ieee raw ts1 rest clock1' sess
                      sessions' c t hr hc ho,
                    runMain_cons_blocked token ieee raw ts2 rest clock2' sess
                      sessions' c t hr hc ho]
                  exact ⟨rfl, rfl, rfl⟩

/-! ### Concrete sessions for the closed examples -/

/-- The authentication challenge sent first by Home Assistant. -/
def authRequiredMsg : InMsg := ⟨"auth_required".data, 0, true, []⟩

/-- A successful authentication result. -/
def authOkMsg : InMsg := ⟨"auth_ok".data, 0, true, []⟩

/-- A rejected authentication result. -/
def authInvalidMsg : InMsg := ⟨"auth_invalid".data, 0, true, []⟩

/-- A successful cluster read response with the given id and result text. -/
def okResp (i : Nat) (r : List Char) : InMsg := ⟨"result".data, i, true, r⟩

/-- A session in which all four cluster reads answer in time. -/
def goodSession : List (Nat × InMsg) :=
  [(0, authRequiredMsg), (0, authOkMsg), (1, okResp 1 "23.0".data),
   (1, okResp 2 "81.0".data), (2, okResp 3 "4900".data), (2, okResp 4 "2500".data)]

/-- A session in which the PM2.5 response only arrives at time 6, past the
5-unit timeout, while the other three answers are then already queued. -/
def lateSession : List (Nat × InMsg) :=
  [(0, authRequiredMsg), (0, authOkMsg), (6, okResp 1 "23.0".data),
   (6, okResp 2 "81.0".data), (6, okResp 3 "4900".data), (6, okResp 4 "2500".data)]

/-- A session in which authentication is rejected. -/
def rejectSession : List (Nat × InMsg) :=
  [(0, authRequiredMsg), (0, authInvalidMsg)]

/-- A session in which the second cluster read fails (`success = false`). -/
def failSession : List (Nat × InMsg) :=
  [(0, authRequiredMsg), (0, authOkMsg), (0, okResp 1 "23.0".data),
   (0, ⟨"result".data, 2, false, "error".data⟩)]

/-! ### Claims -/

/-- C1: every cycle that writes a log line writes it in the form
`<isoTimestamp>;<serialFragment>,ZHA,<N>,<value0>,...,<valueN-1>` where `N`
is the length of the value list the fetch returned (first conjunct, with the
line expanded to exactly that shape), and a fetch cycle in which all four
clusters respond successfully (clean `ok` outcome, no error events) returns
exactly 4 values, so the written line carries `ZHA,4,` followed by the 4
comma-separated values in the fixed cluster order in which the loop collected
them (second conjunct). -/
theorem c1_log_line_format (token ieee : List Char) :
    (∀ (raws clock : List (List Char)) (sessions : List (List (Nat × InMsg))),
      ∀ l ∈ (runMain token ieee raws clock sessions).lines,
        ∃ ts sen vs, vs ≠ [] ∧
          (∃ sess ∈ sessions, (get_values token ieee sess).outcome = .ok vs) ∧
          l = ts ++ ';' :: (sen ++ ",ZHA,".data ++ (Nat.repr vs.length).data
                ++ ',' :: List.intercalate [','] vs)) ∧
    (∀ (stream : List (Nat × InMsg)) (s : List OutMsg) (vs : List (List Char)),
      get_values token ieee stream = ⟨s, [], .ok vs⟩ → vs.length = 4) := by
  constructor
  · intro raws clock sessions l hl
    exact runMain_lines_spec token ieee raws clock sessions l hl
  · intro stream s vs h
    obtain ⟨c1, _⟩ := get_values_ok_spec token ieee stream s [] vs h
    simpa [countTimeouts, clusters] using c1

theorem c1_log_line_format_witness :
    (logLine "T0".data "1455130,1347".data
        ["23.0".data, "81.0".data, "4900".data, "2500".data] ∈
      (runMain "token0".data "ieee0".data ["1455130,1347".data] ["T0".data]
        [goodSession]).lines) ∧
    (∃ ts sen vs, vs ≠ [] ∧
      (∃ sess ∈ [goodSession],
        (get_values "token0".data "ieee0".data sess).outcome = .ok vs) ∧
      logLine "T0".data "1455130,1347".data
          ["23.0".data, "81.0".data, "4900".data, "2500".data] =
        ts ++ ';' :: (sen ++ ",ZHA,".data ++ (Nat.repr vs.length).data
          ++ ',' :: List.intercalate [','] vs)) ∧
    ([ "23.0".data, "81.0".data, "4900".data, "2500".data ] :
        List (List Char)).length = 4 :=
  ⟨by decide,
   (c1_log_line_format "token0".data "ieee0".data).1 ["1455130,1347".data]
     ["T0".data] [goodSession] _ (by decide),
   (c1_log_line_format "token0".data "ieee0".data).2 goodSession
     (OutMsg.auth "token0".data :: reqsFor "ieee0".data 0 clusters)
     ["23.0".data, "81.0".data, "4900".data, "2500".data] (by decide)⟩

/-- C2 as frozen is false: it lists "any timeout" among the cases in which
the fetch cycle aborts and no log line is emitted, but a timed-out cluster
does not abort the cycle.  In `lateSession`, the PM2.5 response misses the
5-unit deadline (a timeout is logged), yet the cycle still emits a log line
(with the three values that did arrive). -/
theorem c2_counterexample :
    (get_values "token0".data "ieee0".data lateSession).errors
        = [ErrEvent.timedOut] ∧
      (runMain "token0".data "ieee0".data ["1455130,1347".data] ["T0".data]
        [lateSession]).lines ≠ [] := by
  decide

/-- C2 amended: the number of values logged equals the number of clusters
whose (successful) response was received — the cluster count minus the
timeouts (first conjunct); if the fetch cycle aborts early on an unsuccessful
response, no log line is emitted for that cycle (second conjunct); if it
aborts on auth failure, no log line is emitted either — the run stops with
nothing written (third conjunct).  Timeouts do not abort the cycle. -/
theorem c2_values_count_and_aborts (token ieee : List Char) :
    (∀ (stream : List (Nat × InMsg)) (s : List OutMsg) (e : List ErrEvent)
        (vs : List (List Char)),
      get_values token ieee stream = ⟨s, e, .ok vs⟩ →
      vs.length + countTimeouts e = clusters.length) ∧
    (∀ (raw ts : List Char) (rest clock : List (List Char))
        (sess : List (Nat × InMsg)) (sessions : List (List (Nat × InMsg)))
        (c : Char) (t : List Char),
      rstripComma (bstrip raw) = c :: t → ¬ (c = '!' ∨ c = '#') →
      (get_values token ieee sess).outcome = .failed →
      (runMain token ieee (raw :: rest) (ts :: clock) (sess :: sessions)).lines
        = (runMain token ieee rest clock sessions).lines) ∧
    (∀ (raw ts : List Char) (rest clock : List (List Char))
        (sess : List (Nat × InMsg)) (sessions : List (List (Nat × InMsg)))
        (c : Char) (t : List Char),
      rstripComma (bstrip raw) = c :: t → ¬ (c = '!' ∨ c = '#') →
      (get_values token ieee sess).outcome = .authError →
      (runMain token ieee (raw :: rest) (ts :: clock) (sess :: sessions)).lines
        = []) := by
  refine ⟨?_, ?_, ?_⟩
  · intro stream s e vs h
    exact (get_values_ok_spec token ieee stream s e vs h).1
  · intro raw ts rest clock sess sessions c t hr hc ho
    rw [runMain_cons_failed token ieee raw ts rest clock sess sessions c t hr hc ho]
  · intro raw ts rest clock sess sessions c t hr hc ho
    rw [runMain_cons_authError token ieee raw ts rest clock sess sessions c t hr hc ho]

theorem c2_values_count_and_aborts_witness :
    ((get_values "token0".data "ieee0".data lateSession =
        ⟨OutMsg.auth "token0".data :: reqsFor "ieee0".data 0 clusters,
         [ErrEvent.timedOut],
         .ok ["81.0".data, "4900".data, "2500".data]⟩) ∧
      (["81.0".data, "4900".data, "2500".data] : List (List Char)).length +
        countTimeouts [ErrEvent.timedOut] = clusters.length) ∧
    ((rstripComma (bstrip "a".data) = 'a' :: [] ∧
        ¬ ('a' = '!' ∨ 'a' = '#') ∧
        (get_values "token0".data "ieee0".data failSession).outcome = .failed) ∧
      (runMain "token0".data "ieee0".data ("a".data :: []) ("T0".data :: [])
          (failSession :: [])).lines
        = (runMain "token0".data "ieee0".data [] [] []).lines) ∧
    ((get_values "token0".data "ieee0".data rejectSession).outcome
        = .authError ∧
      (runMain "token0".data "ieee0".data ("a".data :: []) ("T0".data :: [])
          (rejectSession :: [])).lines = []) :=
  ⟨⟨by decide,
    (c2_values_count_and_aborts "token0".data "ieee0".data).1 lateSession
      (OutMsg.auth "token0".data :: reqsFor "ieee0".data 0 clusters)
      [ErrEvent.timedOut] ["81.0".data, "4900".data, "2500".data] (by decide)⟩,
   ⟨⟨by decide, by decide, by decide⟩,
    (c2_values_count_and_aborts "token0".data "ieee0".data).2.1 "a".data
      "T0".data [] [] failSession [] 'a' [] (by decide) (by decide) (by decide)⟩,
   ⟨by decide,
    (c2_values_count_and_aborts "token0".data "ieee0".data).2.2 "a".data
      "T0".data [] [] rejectSession [] 'a' [] (by decide) (by decide)
      (by decide)⟩⟩

/-- C3 as frozen is false: when authentication is rejected, `get_values`
raises, `main` has no handler, and the process terminates — the loop does NOT
continue with the next serial line.  Here the first cycle hits
`rejectSession`; the run crashes with nothing written, even though the second
serial line with `goodSession` would by itself have produced a log line. -/
theorem c3_counterexample :
    (runMain "token0".data "ieee0".data
        ["1455130,1347".data, "1455131,1348".data] ["T0".data, "T1".data]
        [rejectSession, goodSession]).crash = some Crash.authErr ∧
      (runMain "token0".data "ieee0".data
        ["1455130,1347".data, "1455131,1348".data] ["T0".data, "T1".data]
        [rejectSession, goodSession]).lines = [] ∧
      (runMain "token0".data "ieee0".data ["1455131,1348".data] ["T1".data]
        [goodSession]).lines ≠ [] := by
  decide

/-- C3 amended: when authentication is rejected (the auth response is not
`auth_ok`), the current fetch cycle is aborted with no log line written, and
the raised exception propagates uncaught out of the main loop: the run ends
(crash) rather than continuing with the next serial line. -/
theorem c3_auth_rejected_terminates (token ieee raw ts : List Char)
    (rest clock : List (List Char)) (sessions : List (List (Nat × InMsg)))
    (c : Char) (t : List Char) (a1 a2 : Nat) (m1 m2 : InMsg)
    (s2 : List (Nat × InMsg))
    (hr : rstripComma (bstrip raw) = c :: t) (hc : ¬ (c = '!' ∨ c = '#'))
    (h1 : m1.type = "auth_required".data) (h2 : ¬ m2.type = "auth_ok".data) :
    runMain token ieee (raw :: rest) (ts :: clock)
        (((a1, m1) :: (a2, m2) :: s2) :: sessions)
      = ⟨[], [], some Crash.authErr⟩ := by
  have ho : (get_values token ieee ((a1, m1) :: (a2, m2) :: s2)).outcome
      = .authError := by
    rw [get_values_auth_bad_eq token ieee a1 a2 m1 m2 s2 h1 h2]
  exact runMain_cons_authError token ieee raw ts rest clock _ sessions c t hr hc ho

theorem c3_auth_rejected_terminates_witness :
    (rstripComma (bstrip "a".data) = 'a' :: [] ∧ ¬ ('a' = '!' ∨ 'a' = '#') ∧
      authRequiredMsg.type = "auth_required".data ∧
      ¬ authInvalidMsg.type = "auth_ok".data) ∧
    runMain "token0".data "ieee0".data ("a".data :: []) ("T0".data :: [])
        (((0, authRequiredMsg) :: (0, authInvalidMsg) :: []) :: [])
      = ⟨[], [], some Crash.authErr⟩ :=
  ⟨⟨by decide, by decide, by decide, by decide⟩,
   c3_auth_rejected_terminates "token0".data "ieee0".data "a".data "T0".data
     [] [] [] 'a' [] 0 0 authRequiredMsg authInvalidMsg [] (by decide)
     (by decide) (by decide) (by decide)⟩

/-- C4: when the first inbound message is the authentication challenge, the
credential is sent before any cluster request — the outbound trace starts
with the auth message and everything after it is a cluster read request
(first conjunct) — and a non-ok authentication result is fatal for the call:
`get_values` raises (outcome `authError`, not a normal return) having sent
nothing but the auth message and requested no cluster, and the connection is
torn down by the scoped session exit (second conjunct). -/
theorem c4_auth_challenge (token ieee : List Char) (a1 a2 : Nat)
    (m1 m2 : InMsg) (s2 : List (Nat × InMsg))
    (h1 : m1.type = "auth_required".data) :
    (∃ s', (get_values token ieee ((a1, m1) :: (a2, m2) :: s2)).sent
        = OutMsg.auth token :: s' ∧
        ∀ r ∈ s', ∃ i c, r = OutMsg.clusterReq i ieee 1 c 0) ∧
    (¬ m2.type = "auth_ok".data →
      get_values token ieee ((a1, m1) :: (a2, m2) :: s2)
        = ⟨[OutMsg.auth token], [], .authError⟩) := by
  constructor
  · by_cases h2 : m2.type = "auth_ok".data
    · rw [get_values_auth_ok_eq token ieee a1 a2 m1 m2 s2 h1 h2]
      refine ⟨_, rfl, ?_⟩
      intro r hr
      obtain ⟨k, _, hs⟩ := get_values_loop_sent ieee clusters 0 []
        (max a2 (max a1 0)) s2
      rw [hs] at hr
      exact mem_reqsFor ieee _ 0 r hr
    · rw [get_values_auth_bad_eq token ieee a1 a2 m1 m2 s2 h1 h2]
      exact ⟨[], rfl, by simp⟩
  · intro h2
    exact get_values_auth_bad_eq token ieee a1 a2 m1 m2 s2 h1 h2

theorem c4_auth_challenge_witness :
    (authRequiredMsg.type = "auth_required".data ∧
      ¬ authInvalidMsg.type = "auth_ok".data) ∧
    (∃ s', (get_values "token0".data "ieee0".data
          ((0, authRequiredMsg) :: (0, authInvalidMsg) :: [])).sent
        = OutMsg.auth "token0".data :: s' ∧
        ∀ r ∈ s', ∃ i c, r = OutMsg.clusterReq i "ieee0".data 1 c 0) ∧
    get_values "token0".data "ieee0".data
        ((0, authRequiredMsg) :: (0, authInvalidMsg) :: [])
      = ⟨[OutMsg.auth "token0".data], [], .authError⟩ :=
  ⟨⟨by decide, by decide⟩,
   (c4_auth_challenge "token0".data "ieee0".data 0 0 authRequiredMsg
     authInvalidMsg [] (by decide)).1,
   (c4_auth_challenge "token0".data "ieee0".data 0 0 authRequiredMsg
     authInvalidMsg [] (by decide)).2 (by decide)⟩

/-- C5: when the awaited response for a cluster arrives with
`success = false`, the failure is logged and the call ends immediately with
no value list (`failed`, Python returns `None`): the only request sent in
that state is the failing cluster's own — none of the remaining clusters is
requested (first conjunct); and at the main loop, a cycle whose fetch ended
`failed` writes no log line and the loop moves on (second conjunct, the whole
run equation). -/
theorem c5_unsuccessful_response_aborts (token ieee : List Char) :
    (∀ (c : Nat) (cs : List Nat) (mid : Nat) (values : List (List Char))
        (now t : Nat) (stream rest : List (Nat × InMsg)) (m : InMsg),
      ha_await now (now + 5) (mid + 1) stream = (some m, t, rest) →
      m.success = false →
      get_values_loop ieee (c :: cs) mid values now stream =
        ([OutMsg.clusterReq (mid + 1) ieee 1 c 0], [ErrEvent.respFailed m],
         .failed)) ∧
    (∀ (raw ts : List Char) (rest clock : List (List Char))
        (sess : List (Nat × InMsg)) (sessions : List (List (Nat × InMsg)))
        (c : Char) (t : List Char),
      rstripComma (bstrip raw) = c :: t → ¬ (c = '!' ∨ c = '#') →
      (get_values token ieee sess).outcome = .failed →
      runMain token ieee (raw :: rest) (ts :: clock) (sess :: sessions)
        = runMain token ieee rest clock sessions) := by
  constructor
  · intro c cs mid values now t stream rest m haw hs
    exact get_values_loop_cons_failed ieee c cs mid values now stream m t rest haw hs
  · intro raw ts rest clock sess sessions c t hr hc ho
    exact runMain_cons_failed token ieee raw ts rest clock sess sessions c t hr hc ho

theorem c5_unsuccessful_response_aborts_witness :
    (ha_await 0 (0 + 5) (0 + 1) [(0, InMsg.mk "result".data 1 false "error".data)]
        = (some (InMsg.mk "result".data 1 false "error".data), 0, []) ∧
      (InMsg.mk "result".data 1 false "error".data).success = false ∧
      rstripComma (bstrip "a".data) = 'a' :: [] ∧
      ¬ ('a' = '!' ∨ 'a' = '#') ∧
      (get_values "token0".data "ieee0".data failSession).outcome = .failed) ∧
    (get_values_loop "ieee0".data (0x042a :: [0xfc7e, 0x0405, 0x0402]) 0 [] 0
        [(0, InMsg.mk "result".data 1 false "error".data)] =
      ([OutMsg.clusterReq (0 + 1) "ieee0".data 1 0x042a 0],
       [ErrEvent.respFailed (InMsg.mk "result".data 1 false "error".data)],
       .failed)) ∧
    runMain "token0".data "ieee0".data ("a".data :: []) ("T0".data :: [])
        (failSession :: [])
      = runMain "token0".data "ieee0".data [] [] [] :=
  ⟨⟨by decide, by decide, by decide, by decide, by decide⟩,
   (c5_unsuccessful_response_aborts "token0".data "ieee0".data).1 0x042a
     [0xfc7e, 0x0405, 0x0402] 0 [] 0 0
     [(0, InMsg.mk "result".data 1 false "error".data)] []
     (InMsg.mk "result".data 1 false "error".data) (by decide) (by decide),
   (c5_unsuccessful_response_aborts "token0".data "ieee0".data).2 "a".data
     "T0".data [] [] failSession [] 'a' [] (by decide) (by decide) (by decide)⟩

/-- C6: when the matching response for a cluster does not arrive within the
5-unit deadline, the timeout is logged (`timedOut` error event) and the loop
continues with the remaining clusters, appending no placeholder — `values` is
passed on unchanged (first conjunct); when the loop finishes normally it has
requested every cluster despite the timeouts (second conjunct); and the value
list `get_values` returns is short of the 4 attempted clusters by exactly the
number of timeouts — one entry per timed-out cluster (third conjunct). -/
theorem c6_timeout_no_abort (token ieee : List Char) :
    (∀ (c : Nat) (cs : List Nat) (mid : Nat) (values : List (List Char))
        (now t : Nat) (stream rest : List (Nat × InMsg)),
      ha_await now (now + 5) (mid + 1) stream = (none, t, rest) →
      get_values_loop ieee (c :: cs) mid values now stream =
        (OutMsg.clusterReq (mid + 1) ieee 1 c 0 ::
            (get_values_loop ieee cs (mid + 1) values t rest).1,
         ErrEvent.timedOut ::
            (get_values_loop ieee cs (mid + 1) values t rest).2.1,
         (get_values_loop ieee cs (mid + 1) values t rest).2.2)) ∧
    (∀ (cs : List Nat) (mid : Nat) (values : List (List Char)) (now : Nat)
        (stream : List (Nat × InMsg)) (s : List OutMsg) (e : List ErrEvent)
        (vs : List (List Char)),
      get_values_loop ieee cs mid values now stream = (s, e, .ok vs) →
      s = reqsFor ieee mid cs) ∧
    (∀ (stream : List (Nat × InMsg)) (s : List OutMsg) (e : List ErrEvent)
        (vs : List (List Char)),
      get_values token ieee stream = ⟨s, e, .ok vs⟩ →
      vs.length + countTimeouts e = clusters.length) := by
  refine ⟨?_, ?_, ?_⟩
  · intro c cs mid values now t stream rest haw
    exact get_values_loop_cons_timeout ieee c cs mid values now t stream rest haw
  · intro cs mid values now stream s e vs h
    exact (get_values_loop_ok_spec ieee cs mid values now stream s e vs h).2.2
  · intro stream s e vs h
    exact (get_values_ok_spec token ieee stream s e vs h).1

theorem c6_timeout_no_abort_witness :
    (ha_await 0 (0 + 5) (0 + 1) [] = (none, 5, ([] : List (Nat × InMsg))) ∧
      get_values_loop "ieee0".data [0xfc7e, 0x0405, 0x0402] (0 + 1) [] 5 [] =
        (reqsFor "ieee0".data 1 [0xfc7e, 0x0405, 0x0402],
         [ErrEvent.timedOut, ErrEvent.timedOut, ErrEvent.timedOut],
         .ok []) ∧
      get_values "token0".data "ieee0".data lateSession =
        ⟨OutMsg.auth "token0".data :: reqsFor "ieee0".data 0 clusters,
         [ErrEvent.timedOut], .ok ["81.0".data, "4900".data, "2500".data]⟩) ∧
    (get_values_loop "ieee0".data (0x042a :: [0xfc7e, 0x0405, 0x0402]) 0 [] 0 [] =
      (OutMsg.clusterReq (0 + 1) "ieee0".data 1 0x042a 0 ::
          (get_values_loop "ieee0".data [0xfc7e, 0x0405, 0x0402] (0 + 1) [] 5 []).1,
       ErrEvent.timedOut ::
          (get_values_loop "ieee0".data [0xfc7e, 0x0405, 0x0402] (0 + 1) [] 5 []).2.1,
       (get_values_loop "ieee0".data [0xfc7e, 0x0405, 0x0402] (0 + 1) [] 5 []).2.2)) ∧
    (reqsFor "ieee0".data 1 [0xfc7e, 0x0405, 0x0402] =
      reqsFor "ieee0".data 1 [0xfc7e, 0x0405, 0x0402]) ∧
    (["81.0".data, "4900".data, "2500".data] : List (List Char)).length +
        countTimeouts [ErrEvent.timedOut] = clusters.length :=
  ⟨⟨by decide, by decide, by decide⟩,
   (c6_timeout_no_abort "token0".data "ieee0".data).1 0x042a
     [0xfc7e, 0x0405, 0x0402] 0 [] 0 5 [] [] (by decide),
   (c6_timeout_no_abort "token0".data "ieee0".data).2.1
     [0xfc7e, 0x0405, 0x0402] 1 [] 5 []
     (reqsFor "ieee0".data 1 [0xfc7e, 0x0405, 0x0402])
     [ErrEvent.timedOut, ErrEvent.timedOut, ErrEvent.timedOut] [] (by decide),
   (c6_timeout_no_abort "token0".data "ieee0".data).2.2 lateSession
     (OutMsg.auth "token0".data :: reqsFor "ieee0".data 0 clusters)
     [ErrEvent.timedOut] ["81.0".data, "4900".data, "2500".data] (by decide)⟩

/-- C7: a serial line whose first character after stripping whitespace and
trailing commas is `!` or `#` only adds a data-error warning: the written
lines and the crash status are those of the rest of the run, and the clock
and the websocket sessions are passed on untouched — the Zigbee fetch is
never invoked for that line and no log line is ever written for it. -/
theorem c7_sentinel_lines_skipped (token ieee raw : List Char)
    (rest clock : List (List Char)) (sessions : List (List (Nat × InMsg)))
    (c : Char) (t : List Char)
    (hr : rstripComma (bstrip raw) = c :: t) (hc : c = '!' ∨ c = '#') :
    runMain token ieee (raw :: rest) clock sessions =
      ⟨(runMain token ieee rest clock sessions).lines,
       (c :: t) :: (runMain token ieee rest clock sessions).warnings,
       (runMain token ieee rest clock sessions).crash⟩ :=
  runMain_cons_sentinel token ieee raw rest clock sessions c t hr hc

theorem c7_sentinel_lines_skipped_witness :
    (rstripComma (bstrip "!ERR sensor fault".data) =
        '!' :: "ERR sensor fault".data ∧
      ('!' = '!' ∨ '!' = '#')) ∧
    runMain "token0".data "ieee0".data ("!ERR sensor fault".data :: [])
        ["T0".data] [goodSession] =
      ⟨(runMain "token0".data "ieee0".data [] ["T0".data] [goodSession]).lines,
       ('!' :: "ERR sensor fault".data) ::
         (runMain "token0".data "ieee0".data [] ["T0".data]
           [goodSession]).warnings,
       (runMain "token0".data "ieee0".data [] ["T0".data]
         [goodSession]).crash⟩ :=
  ⟨⟨by decide, by decide⟩,
   c7_sentinel_lines_skipped "token0".data "ieee0".data
     "!ERR sensor fault".data [] ["T0".data] [goodSession] '!'
     "ERR sensor fault".data (by decide) (by decide)⟩

/-- C8: the outbound trace of a session's cluster loop is the read requests
for a prefix of the cluster list, in the fixed order, with ids counting up
from `mid + 1` — `get_values` starts the loop at `mid = 0`, so ids start at 1
(first conjunct); those ids are exactly the consecutive range, hence unique
within the session (second and third conjuncts); and the await (bounded by
the `now + 5` deadline the loop passes it) returns only a message whose id
matches, skipping past — without consuming as results — every interleaved
message with a non-matching id (fourth conjunct). -/
theorem c8_request_ids (ieee : List Char) :
    (∀ (cs : List Nat) (mid : Nat) (values : List (List Char)) (now : Nat)
        (stream : List (Nat × InMsg)),
      ∃ k, k ≤ cs.length ∧
        (get_values_loop ieee cs mid values now stream).1 =
          reqsFor ieee mid (cs.take k)) ∧
    (∀ (cs : List Nat) (mid : Nat),
      (reqsFor ieee mid cs).map reqId = List.range' (mid + 1) cs.length) ∧
    (∀ (cs : List Nat) (mid : Nat), ((reqsFor ieee mid cs).map reqId).Nodup) ∧
    (∀ (now deadline mid t : Nat) (stream rest : List (Nat × InMsg))
        (m : InMsg),
      ha_await now deadline mid stream = (some m, t, rest) →
      m.id = mid ∧ ∃ pre a, stream = pre ++ (a, m) :: rest ∧
        ∀ q ∈ pre, (Prod.snd q).id ≠ mid) := by
  refine ⟨get_values_loop_sent ieee, reqsFor_map_reqId ieee, ?_, ?_⟩
  · intro cs mid
    rw [reqsFor_map_reqId ieee cs mid]
    exact List.nodup_range' _ _
  · intro now deadline mid t stream rest m h
    exact ha_await_some_spec mid stream now deadline t m rest h

theorem c8_request_ids_witness :
    (∃ k, k ≤ clusters.length ∧
      (get_values_loop "ieee0".data clusters 0 [] 0
          [(1, okResp 1 "23.0".data), (1, okResp 2 "81.0".data),
           (2, okResp 3 "4900".data), (2, okResp 4 "2500".data)]).1 =
        reqsFor "ieee0".data 0 (clusters.take k)) ∧
    (reqsFor "ieee0".data 0 clusters).map reqId =
      List.range' (0 + 1) clusters.length ∧
    ((reqsFor "ieee0".data 0 clusters).map reqId).Nodup ∧
    (ha_await 0 9 2 [(0, okResp 1 "23.0".data), (0, okResp 2 "81.0".data)] =
        (some (okResp 2 "81.0".data), 0, []) ∧
      ((okResp 2 "81.0".data).id = 2 ∧
        ∃ pre a, [(0, okResp 1 "23.0".data), (0, okResp 2 "81.0".data)] =
            pre ++ (a, okResp 2 "81.0".data) :: ([] : List (Nat × InMsg)) ∧
          ∀ q ∈ pre, (Prod.snd q).id ≠ 2)) :=
  ⟨(c8_request_ids "ieee0".data).1 clusters 0 [] 0
     [(1, okResp 1 "23.0".data), (1, okResp 2 "81.0".data),
      (2, okResp 3 "4900".data), (2, okResp 4 "2500".data)],
   (c8_request_ids "ieee0".data).2.1 clusters 0,
   (c8_request_ids "ieee0".data).2.2.1 clusters 0,
   by decide,
   (c8_request_ids "ieee0".data).2.2.2 0 9 2 0
     [(0, okResp 1 "23.0".data), (0, okResp 2 "81.0".data)] []
     (okResp 2 "81.0".data) (by decide)⟩

/-- C9: the output is a deterministic function of the serial lines, the
websocket sessions and the clock: two runs over the same serial lines and
sessions, with clocks of equal length whose timestamps contain no `;`,
write the same lines up to the timestamp field (everything from the first
`;` on is identical line by line), log the same warnings, and end with the
same crash status. -/
theorem c9_deterministic_replay (token ieee : List Char)
    (raws clock1 clock2 : List (List Char))
    (sessions : List (List (Nat × InMsg)))
    (hlen : clock1.length = clock2.length)
    (h1 : ∀ ts ∈ clock1, ';' ∉ ts) (h2 : ∀ ts ∈ clock2, ';' ∉ ts) :
    (runMain token ieee raws clock1 sessions).lines.map stripTs =
        (runMain token ieee raws clock2 sessions).lines.map stripTs ∧
      (runMain token ieee raws clock1 sessions).warnings =
        (runMain token ieee raws clock2 sessions).warnings ∧
      (runMain token ieee raws clock1 sessions).crash =
        (runMain token ieee raws clock2 sessions).crash :=
  runMain_clock_congr token ieee raws clock1 clock2 sessions hlen h1 h2

theorem c9_deterministic_replay_witness :
    ((["T0".data] : List (List Char)).length = (["T1".data] : List (List Char)).length ∧
      (∀ ts ∈ [("T0".data : List Char)], ';' ∉ ts) ∧
      (∀ ts ∈ [("T1".data : List Char)], ';' ∉ ts)) ∧
    ((runMain "token0".data "ieee0".data ["1455130,1347".data] ["T0".data]
          [goodSession]).lines.map stripTs =
        (runMain "token0".data "ieee0".data ["1455130,1347".data] ["T1".data]
          [goodSession]).lines.map stripTs ∧
      (runMain "token0".data "ieee0".data ["1455130,1347".data] ["T0".data]
          [goodSession]).warnings =
        (runMain "token0".data "ieee0".data ["1455130,1347".data] ["T1".data]
          [goodSession]).warnings ∧
      (runMain "token0".data "ieee0".data ["1455130,1347".data] ["T0".data]
          [goodSession]).crash =
        (runMain "token0".data "ieee0".data ["1455130,1347".data] ["T1".data]
          [goodSession]).crash) :=
  ⟨⟨by decide, by decide, by decide⟩,
   c9_deterministic_replay "token0".data "ieee0".data ["1455130,1347".data]
     ["T0".data] ["T1".data] [goodSession] (by decide) (by decide) (by decide)⟩

/-- C10 as frozen is false: a serial line consisting of a single comma is
non-empty after whitespace stripping, yet after stripping trailing commas the
string inspected by the sentinel check is empty, so the index access fails —
the run crashes with an IndexError instead of never failing. -/
theorem c10_counterexample :
    bstrip [','] ≠ [] ∧
      runMain "token0".data "ieee0".data [[',']] [] []
        = ⟨[], [], some (Crash.indexErr [','])⟩ := by
  decide

/-- C10 amended: for every serial line that still contains a non-comma
character after whitespace stripping, the decoded comma-stripped string is
non-empty at the sentinel check, so the index access succeeds (first
conjunct); but a non-empty line consisting only of commas reaches the check
with an empty string and the index access raises, crashing the run (second
conjunct). -/
theorem c10_index_access (token ieee : List Char) :
    (∀ raw : List Char, (∃ c ∈ bstrip raw, ¬ c = ',') →
      rstripComma (bstrip raw) ≠ []) ∧
    (∀ (raw : List Char) (rest clock : List (List Char))
        (sessions : List (List (Nat × InMsg))),
      bstrip raw ≠ [] → (∀ c ∈ bstrip raw, c = ',') →
      runMain token ieee (raw :: rest) clock sessions
        = ⟨[], [], some (Crash.indexErr raw)⟩) := by
  constructor
  · rintro raw ⟨c, hm, hne⟩ hnil
    exact hne ((rstripComma_eq_nil_iff _).mp hnil c hm)
  · intro raw rest clock sessions hb hall
    exact runMain_cons_indexErr token ieee raw rest clock sessions hb
      ((rstripComma_eq_nil_iff _).mpr hall)

theorem c10_index_access_witness :
    ((∃ c ∈ bstrip "abc,,".data, ¬ c = ',') ∧
      bstrip [','] ≠ [] ∧ (∀ c ∈ bstrip [','], c = ',')) ∧
    rstripComma (bstrip "abc,,".data) ≠ [] ∧
    runMain "token0".data "ieee0".data ([','] :: []) [] []
      = ⟨[], [], some (Crash.indexErr [','])⟩ :=
  ⟨⟨by decide, by decide, by decide⟩,
   (c10_index_access "token0".data "ieee0".data).1 "abc,,".data (by decide),
   (c10_index_access "token0".data "ieee0".data).2 [','] [] [] [] (by decide)
     (by decide)⟩

end Vindstyrka
